import Mathlib

set_option autoImplicit false

/-!
Shallow embedding of the S402 payment-gating protocol core:
challenge construction, EIP-712 signature verification, on-chain
settlement verification and the request gating state machine, translated
from the TypeScript sources (s402Service, blockchainService,
pricingService, the s402 middleware, schema, http/crypto utils).
External collaborators (the ethers chain client, ABI decoding, ECDSA
recovery, randomness, the clock) are modelled as explicit parameters, as
the spec describes them as injected collaborator interfaces.
-/

namespace S402

/-- Contract address constant from the config module (`S402_FACILITATOR`). -/
def S402_FACILITATOR : String := "0x605c5c8d83152bd98ecAc9B77a845349DA3c48a3"

/-- Token address constant from the config module (`USD1_TOKEN`). -/
def USD1_TOKEN : String := "0x8d0D000Ee44948FC98c9B98A4FA4921476f08B0d"

/-- The zero address used as default owner in `buildPaymentRequest`. -/
def zeroAddress : String := "0x0000000000000000000000000000000000000000"

/-- ASCII lowercasing of a string (JS `toLowerCase()` on hex addresses). -/
def toLowerStr (s : String) : String :=
  String.mk (s.data.map Char.toLower)

/-- JS `BigInt(s)` on a decimal digit string (also `BigInt("") = 0n`). -/
def natOfDecimal (s : String) : Nat :=
  s.data.foldl (fun n c => n * 10 + (c.toNat - 48)) 0

/-- The zod schema regex for `payment.value`: `^\d+$` (one or more digits). -/
def isDecimalString (s : String) : Bool :=
  !s.data.isEmpty && s.data.all (fun c => c.isDigit)

/-- JS `a.includes(pat)` substring test, used by the middleware catch block. -/
def includesSubstr (s pat : String) : Bool :=
  s.data.tails.any (fun t => pat.data.isPrefixOf t)

deriving instance DecidableEq for Except

/-- `PaymentData` from shared/schema.ts. -/
structure PaymentData where
  owner : String
  value : String
  deadline : Nat
  recipient : String
  nonce : String
  deriving Repr, DecidableEq

/-- EIP-712 `Signature` {v, r, s} from shared/schema.ts. -/
structure Sig where
  v : Nat
  r : String
  s : String
  deriving Repr, DecidableEq

/-- `S402Proof` from shared/schema.ts (permitSig is never read by the validators). -/
structure S402Proof where
  payment : PaymentData
  permitSig : Option Sig
  authSig : Sig
  txHash : Option String
  deriving Repr, DecidableEq

/-- `EIP712Domain` from shared/schema.ts. -/
structure EIP712Domain where
  name : String
  version : String
  chainId : Nat
  verifyingContract : String
  deriving Repr, DecidableEq

/-- `PAYMENT_AUTHORIZATION_TYPES.PaymentAuthorization` field descriptor list. -/
def PAYMENT_AUTHORIZATION_TYPES : List (String × String) :=
  [("owner", "address"), ("spender", "address"), ("value", "uint256"),
   ("deadline", "uint256"), ("recipient", "address"), ("nonce", "bytes32")]

/-- A settlement event as decoded by `contract.interface.parseLog`
(`from`, `to`, `nonce`, `value`, optional `platformFee`). -/
structure ParsedLog where
  name : String
  fromAddr : String
  toAddr : String
  nonce : String
  value : Nat
  platformFee : Option Nat
  deriving Repr, DecidableEq

/-- The decoded payment struct extracted from settlement calldata
(each field accessed with optional chaining in the source). -/
structure TxPayment where
  owner : Option String
  recipient : Option String
  value : Option Nat
  deadline : Option Nat
  nonce : Option String
  deriving Repr, DecidableEq

/-- Result of `contract.interface.parseTransaction` on a transaction's
calldata; `payment` models `parsedTx.args?.payment ?? parsedTx.args?.[0]`. -/
structure ParsedTx where
  name : String
  payment : Option TxPayment
  deriving Repr, DecidableEq

/-- A fetched transaction: its sender and the outcome of decoding its
calldata against the facilitator ABI (`Except.error` models a decoder
exception, `Except.ok none` a null result for an unknown selector). -/
structure Tx where
  fromAddr : Option String
  parsedCalldata : Except Unit (Option ParsedTx)
  deriving Repr, DecidableEq

/-- A transaction receipt: block number, execution status, target address,
and the decode outcome of each emitted log (`none` models a log that fails
to decode against the facilitator ABI). -/
structure Receipt where
  blockNumber : Int
  status : Option Nat
  toAddr : Option String
  logs : List (Option ParsedLog)
  deriving Repr, DecidableEq

/-- The chain-client collaborator interface (`getProvider()`): each call
may raise a provider error, modelled as `Except.error`. -/
structure Chain where
  getTransactionReceipt : String → Except String (Option Receipt)
  getBlockNumber : Except String Int
  getTransaction : String → Except String (Option Tx)

/-- Result record of `verifyTransactionSettlement`. -/
structure VerifyResult where
  verified : Bool
  confirmations : Int
  error : Option String
  deriving Repr, DecidableEq

/-- The insufficient-confirmations error message, reporting the have and
need counts as in the source template string. -/
def insufficientConfirmationsMsg (got need : Int) : String :=
  s!"Insufficient confirmations: {got}/{need}"

/-- The two known settlement function names checked by the fallback path. -/
def settlementFunctionNames : List String :=
  ["settlePayment", "settlePaymentWithPermit"]

/-- The per-log match test of the primary path: the decoded event must be
a `PaymentSettled` event whose `from`/`to` match owner/recipient
case-insensitively, whose nonce matches strictly, and whose value matches
either net (`value`) or gross (`value + platformFee`). -/
def eventMatches (payment : PaymentData) (pl : ParsedLog) : Bool :=
  pl.name == "PaymentSettled" &&
  toLowerStr pl.fromAddr == toLowerStr payment.owner &&
  toLowerStr pl.toAddr == toLowerStr payment.recipient &&
  pl.nonce == payment.nonce &&
  (pl.value == natOfDecimal payment.value ||
   pl.value + pl.platformFee.getD 0 == natOfDecimal payment.value)

/-- The primary-path scan over the receipt's logs: decode failures are
skipped, and the scan succeeds at the first fully matching event. -/
def hasMatchingSettlementEvent (payment : PaymentData) (logs : List (Option ParsedLog)) : Bool :=
  logs.any fun o =>
    match o with
    | some pl => eventMatches payment pl
    | none => false

/-- `receipt.to?.toLowerCase() === contract.target.toString().toLowerCase()`. -/
def receiptTargetsFacilitator (receipt : Receipt) : Bool :=
  match receipt.toAddr with
  | some a => toLowerStr a == toLowerStr S402_FACILITATOR
  | none => false

/-- The `calldataMatches` record of the fallback path: every field of the
embedded payment struct must match (missing fields fail), and the
transaction sender must equal the payment owner. -/
def calldataMatches (payment : PaymentData) (tx : Tx) (tp : TxPayment) : Bool :=
  (match tp.owner with
   | some o => toLowerStr o == toLowerStr payment.owner
   | none => false) &&
  (match tp.recipient with
   | some r => toLowerStr r == toLowerStr payment.recipient
   | none => false) &&
  (match tp.value with
   | some v => toString v == payment.value
   | none => false) &&
  (match tp.deadline with
   | some d => toString d == toString payment.deadline
   | none => false) &&
  (match tp.nonce with
   | some n => n == payment.nonce
   | none => false) &&
  (match tx.fromAddr with
   | some f => toLowerStr f == toLowerStr payment.owner
   | none => false)

/-- The fallback (calldata) branch of `verifyTransactionSettlement`, given
an already fetched transaction and the computed confirmation count. -/
def fallbackVerify (payment : PaymentData) (confirmations : Int) (tx : Tx) : VerifyResult :=
  match tx.parsedCalldata with
  | Except.error _ =>
      ⟨false, confirmations, some "Unable to parse transaction calldata"⟩
  | Except.ok none =>
      ⟨false, confirmations, some "Unexpected function call"⟩
  | Except.ok (some parsedTx) =>
      if !(settlementFunctionNames.contains parsedTx.name) then
        ⟨false, confirmations, some "Unexpected function call"⟩
      else
        match parsedTx.payment with
        | none => ⟨false, confirmations, some "Missing payment arguments"⟩
        | some tp =>
            if calldataMatches payment tx tp then
              ⟨true, confirmations, none⟩
            else
              ⟨false, confirmations, some "Payment parameters mismatch"⟩

/-- Body of the `try` block of `verifyTransactionSettlement`; a provider
exception from any chain-client call surfaces as `Except.error`. -/
def innerVerify (chain : Chain) (minimumConfirmations : Int) (txHash : String)
    (payment : PaymentData) : Except String VerifyResult :=
  match chain.getTransactionReceipt txHash with
  | Except.error e => Except.error e
  | Except.ok none => Except.ok ⟨false, 0, some "Transaction not found"⟩
  | Except.ok (some receipt) =>
      match chain.getBlockNumber with
      | Except.error e => Except.error e
      | Except.ok currentBlock =>
          let confirmations : Int := currentBlock - receipt.blockNumber + 1
          if confirmations < minimumConfirmations then
            Except.ok ⟨false, confirmations,
              some (insufficientConfirmationsMsg confirmations minimumConfirmations)⟩
          else if receipt.status ≠ some 1 then
            Except.ok ⟨false, confirmations, some "Transaction failed"⟩
          else if !receiptTargetsFacilitator receipt then
            Except.ok ⟨false, confirmations, some "Wrong contract called"⟩
          else if hasMatchingSettlementEvent payment receipt.logs then
            Except.ok ⟨true, confirmations, none⟩
          else
            match chain.getTransaction txHash with
            | Except.error e => Except.error e
            | Except.ok none =>
                Except.ok ⟨false, confirmations, some "Transaction data unavailable"⟩
            | Except.ok (some tx) =>
                Except.ok (fallbackVerify payment confirmations tx)

/-- `verifyTransactionSettlement` with its surrounding catch-all: any
provider exception becomes verified=false / confirmations 0 / generic error. -/
def verifyTransactionSettlement (chain : Chain) (minimumConfirmations : Int)
    (txHash : String) (payment : PaymentData) : VerifyResult :=
  match innerVerify chain minimumConfirmations txHash payment with
  | Except.ok r => r
  | Except.error _ => ⟨false, 0, some "Verification failed"⟩

/-- The ECDSA recovery collaborator (`ethers.verifyTypedData` composed
with `ethers.Signature.from`): given a domain, the typed value and a
signature it either recovers an address or raises (malformed signature). -/
structure AuthTypedValue where
  owner : String
  spender : String
  value : String
  deadline : Nat
  recipient : String
  nonce : String
  deriving Repr, DecidableEq

/-- The typed value handed to recovery by `verifyEIP712Signature`: all
payment fields plus `spender` forced to the facilitator contract address
(never taken from caller input; `PaymentData` has no spender field). -/
def paymentTypedValue (payment : PaymentData) : AuthTypedValue :=
  { owner := payment.owner
    spender := S402_FACILITATOR
    value := payment.value
    deadline := payment.deadline
    recipient := payment.recipient
    nonce := payment.nonce }

/-- Type of the injected typed-data recovery oracle; `Except.error`
models an exception raised during signature reconstruction or recovery. -/
def Recover : Type :=
  EIP712Domain → AuthTypedValue → Sig → Except Unit String

/-- `verifyEIP712Signature` from s402Service.ts: recover the signer of the
typed value (with forced spender) and compare case-insensitively with
`payment.owner`; any recovery exception yields `false`. -/
def verifyEIP712Signature (recover : Recover) (payment : PaymentData)
    (authSig : Sig) (domain : EIP712Domain) : Bool :=
  match recover domain (paymentTypedValue payment) authSig with
  | Except.error _ => false
  | Except.ok recoveredAddress =>
      toLowerStr recoveredAddress == toLowerStr payment.owner

/-- `buildEIP712Domain` from s402Service.ts. -/
def buildEIP712Domain (chainId : Nat) : EIP712Domain :=
  { name := "S402Facilitator"
    version := "1"
    chainId := chainId
    verifyingContract := S402_FACILITATOR }

/-- Message pushed when `proof.payment.value` differs from the expected
price's decimal rendering. -/
def valueErrorMsg (expected got : String) : String :=
  s!"Invalid payment value: expected {expected}, got {got}"

/-- Message pushed when the recipient differs case-insensitively. -/
def recipientErrorMsg (expected got : String) : String :=
  s!"Invalid recipient: expected {expected}, got {got}"

/-- Message pushed when the deadline is not strictly in the future. -/
def deadlineErrorMsg (deadline now : Nat) : String :=
  s!"Payment deadline expired: {deadline} <= {now}"

/-- Message pushed when the configured chain id is not 56. -/
def chainIdErrorMsg (chainId : Nat) : String :=
  s!"Invalid chain ID: expected 56, configured as {chainId}"

/-- Message pushed when the proof has no transaction hash. -/
def txHashErrorMsg : String :=
  "Transaction hash is required for verification"

/-- The parameter-validation error accumulator shared verbatim by
`validateSubmittedProof` and `validateSubmittedProofAsync`: txHash
presence, exact value string match, case-insensitive recipient match,
strictly-future deadline, configured chain id equal to 56; messages are
collected in source order. -/
def paramErrors (chainId now : Nat) (expectedPrice : Nat)
    (expectedRecipient : String) (proof : S402Proof) : List String :=
  (if proof.txHash.isNone then [txHashErrorMsg] else []) ++
  (if proof.payment.value ≠ toString expectedPrice then
      [valueErrorMsg (toString expectedPrice) proof.payment.value]
    else []) ++
  (if toLowerStr proof.payment.recipient ≠ toLowerStr expectedRecipient then
      [recipientErrorMsg expectedRecipient proof.payment.recipient]
    else []) ++
  (if proof.payment.deadline ≤ now then
      [deadlineErrorMsg proof.payment.deadline now]
    else []) ++
  (if chainId ≠ 56 then [chainIdErrorMsg chainId] else [])

/-- `S402Context` attached to a granted request; the still-running
verification promise of the async discipline is modelled by its eventual
result. -/
structure S402Context where
  owner : String
  value : Nat
  payment : PaymentData
  txHash : Option String
  verifiedAsync : Bool := false
  verificationPromise : Option VerifyResult := none
  deriving Repr, DecidableEq

/-- Message thrown when parameter validation fails. -/
def validationFailedMsg (errors : List String) : String :=
  "Proof validation failed: " ++ String.intercalate ", " errors

/-- Message thrown when EIP-712 signature verification fails. -/
def invalidSignatureMsg : String :=
  "Invalid signature: EIP-712 signature verification failed"

/-- Message thrown by the synchronous validator when on-chain settlement
verification fails, carrying the verifier's reason. -/
def settlementFailureMsg (reason : Option String) : String :=
  "Transaction verification failed: " ++ reason.getD "undefined"

/-- `validateSubmittedProof` (synchronous discipline): parameter checks,
then signature verification, then awaited on-chain settlement
verification; a thrown `Error` is modelled as `Except.error` of its
message. The `proof.txHash!` non-null assertion of the source is modelled
by `Option.getD`; it is only reached when the txHash error was not pushed. -/
def validateSubmittedProof (recover : Recover) (chain : Chain)
    (minimumConfirmations : Int) (chainId now : Nat) (proof : S402Proof)
    (expectedPrice : Nat) (expectedRecipient : String) :
    Except String S402Context :=
  let errors := paramErrors chainId now expectedPrice expectedRecipient proof
  if errors ≠ [] then
    Except.error (validationFailedMsg errors)
  else if !verifyEIP712Signature recover proof.payment proof.authSig
      (buildEIP712Domain chainId) then
    Except.error invalidSignatureMsg
  else
    let verification :=
      verifyTransactionSettlement chain minimumConfirmations
        (proof.txHash.getD "") proof.payment
    if !verification.verified then
      Except.error (settlementFailureMsg verification.error)
    else
      Except.ok
        { owner := proof.payment.owner
          value := natOfDecimal proof.payment.value
          payment := proof.payment
          txHash := proof.txHash }

/-- `validateSubmittedProofAsync`: identical parameter and signature
checks, but the settlement verification is started and not awaited; the
returned context carries `verifiedAsync := true` and the promise handle. -/
def validateSubmittedProofAsync (recover : Recover) (chain : Chain)
    (minimumConfirmations : Int) (chainId now : Nat) (proof : S402Proof)
    (expectedPrice : Nat) (expectedRecipient : String) :
    Except String S402Context :=
  let errors := paramErrors chainId now expectedPrice expectedRecipient proof
  if errors ≠ [] then
    Except.error (validationFailedMsg errors)
  else if !verifyEIP712Signature recover proof.payment proof.authSig
      (buildEIP712Domain chainId) then
    Except.error invalidSignatureMsg
  else
    let verificationPromise :=
      verifyTransactionSettlement chain minimumConfirmations
        (proof.txHash.getD "") proof.payment
    Except.ok
      { owner := proof.payment.owner
        value := natOfDecimal proof.payment.value
        payment := proof.payment
        txHash := proof.txHash
        verifiedAsync := true
        verificationPromise := some verificationPromise }

/-- Lowercase hex digit of a value below 16 (`Buffer.toString("hex")`). -/
def hexDigitChar (n : Nat) : Char :=
  if n < 10 then Char.ofNat (48 + n) else Char.ofNat (87 + n)

/-- Two lowercase hex digits of one byte. -/
def byteToHex (b : Nat) : String :=
  String.mk [hexDigitChar (b / 16), hexDigitChar (b % 16)]

/-- Hex rendering of a byte list, as `Buffer.toString("hex")`. -/
def hexOfBytes : List Nat → String
  | [] => ""
  | b :: bs => byteToHex b ++ hexOfBytes bs

/-- `generateNonce` from utils/crypto.ts, with the `randomBytes(32)` draw
made an explicit input: the 0x-prefixed lowercase hex of the drawn bytes. -/
def generateNonce (randomDraw : List Nat) : String :=
  "0x" ++ hexOfBytes randomDraw

/-- Input record of `buildPaymentRequest`. -/
structure PaymentRequestParams where
  routeKey : String
  price : Nat
  recipient : String
  owner : Option String
  deriving Repr, DecidableEq

/-- Result record of `buildPaymentRequest` (the constant `types` field is
`PAYMENT_AUTHORIZATION_TYPES`). -/
structure PaymentRequestResult where
  payment : PaymentData
  domain : EIP712Domain
  types : List (String × String)
  deriving Repr, DecidableEq

/-- JS `params.owner || zeroAddress`: null/undefined and the empty string
fall back to the zero address. -/
def ownerOrZero (owner : Option String) : String :=
  match owner with
  | some o => if o = "" then zeroAddress else o
  | none => zeroAddress

/-- `buildPaymentRequest` from s402Service.ts, with the clock
(`Date.now()/1000`) and the random draw made explicit inputs. -/
def buildPaymentRequest (chainId now : Nat) (randomDraw : List Nat)
    (params : PaymentRequestParams) : PaymentRequestResult :=
  let deadline := now + 600
  let nonce := generateNonce randomDraw
  { payment :=
      { owner := ownerOrZero params.owner
        value := toString params.price
        deadline := deadline
        recipient := params.recipient
        nonce := nonce }
    domain := buildEIP712Domain chainId
    types := PAYMENT_AUTHORIZATION_TYPES }

/-- The read-only server configuration shared across requests: chain id,
minimum confirmation threshold, the per-route price table (values are the
decimal strings of the config file), base price and global recipient. -/
structure ServerConfig where
  chainId : Nat
  minimumConfirmations : Int
  priceTable : String → Option String
  basePrice : String
  recipient : String

/-- `getPriceForRoute` from pricingService.ts: a truthy route entry
(present and non-empty) is used, otherwise the base price; both are read
with `BigInt`. -/
def getPriceForRoute (cfg : ServerConfig) (routeKey : String) : Nat :=
  match cfg.priceTable routeKey with
  | some s => if s = "" then natOfDecimal cfg.basePrice else natOfDecimal s
  | none => natOfDecimal cfg.basePrice

/-- `getRecipientForRoute` from pricingService.ts: the global recipient. -/
def getRecipientForRoute (cfg : ServerConfig) (_routeKey : String) : String :=
  cfg.recipient

/-- The 402 response body built by `buildPaymentRequired` (utils/http.ts);
`typedData.domain` is flattened into `domain`, `typedData.types` into
`types`. -/
structure PaymentRequired402 where
  error : String
  message : String
  facilitator : String
  token : String
  chainId : Nat
  routeKey : String
  payment : PaymentData
  domain : EIP712Domain
  types : List (String × String)
  deriving Repr, DecidableEq

/-- `buildPaymentRequired` from utils/http.ts. -/
def buildPaymentRequired (facilitator token : String) (chainId : Nat)
    (routeKey : String) (payment : PaymentData) (domain : EIP712Domain) :
    PaymentRequired402 :=
  { error := "PAYMENT_REQUIRED"
    message := "Payment required via S402."
    facilitator := facilitator
    token := token
    chainId := chainId
    routeKey := routeKey
    payment := payment
    domain := domain
    types := PAYMENT_AUTHORIZATION_TYPES }

/-- The `s402Proof` field of the request body after the zod parse:
absent, schema-invalid (parse throws a ZodError), or parsed. -/
inductive ProofInput where
  | absent
  | malformed
  | valid (proof : S402Proof)
  deriving Repr, DecidableEq

/-- An inbound request as seen by the middleware: the proof field and the
optional `owner` field of the body. -/
structure Request where
  s402Proof : ProofInput
  ownerField : Option String
  deriving Repr, DecidableEq

/-- JS `req.body?.owner || null`. -/
def reqOwner (req : Request) : Option String :=
  match req.ownerField with
  | some s => if s = "" then none else some s
  | none => none

/-- Log level of the background-verification log entry. -/
inductive LogLevel where
  | info
  | warn
  deriving Repr, DecidableEq

/-- Observable outcome of a middleware invocation: a 402 challenge, a
denial with HTTP status/code/message, or a grant (the handler runs with
the attached context); a grant of the async discipline also carries the
level of the background log entry recording the eventual verification
outcome. -/
inductive MwOutcome where
  | paymentRequired (resp : PaymentRequired402)
  | denied (status : Nat) (code : String) (message : String)
  | granted (ctx : S402Context) (backgroundLog : Option LogLevel)
  deriving Repr, DecidableEq

/-- The middleware catch block for errors thrown by the validators: a
message containing one of the three recognised substrings yields 403;
anything else reaches `next(error)` and the global `errorHandler`, which
for a plain `Error` (no `status` field, not a ZodError) responds 500. -/
def classifyThrownError (msg : String) : MwOutcome :=
  if includesSubstr msg "validation failed" ||
     includesSubstr msg "not settled" ||
     includesSubstr msg "Invalid signature" then
    MwOutcome.denied 403 "PAYMENT_VERIFICATION_FAILED" msg
  else
    MwOutcome.denied 500 "INTERNAL_ERROR" "An internal server error occurred"

/-- The injected collaborators and ambient state of one request: recovery
oracle, chain client, configuration, clock and the nonce random draw. -/
structure Env where
  recover : Recover
  chain : Chain
  cfg : ServerConfig
  now : Nat
  randomDraw : List Nat

/-- The 402 branch shared by both gating middlewares. -/
def paymentRequiredResponse (env : Env) (routeKey : String) (req : Request) :
    PaymentRequired402 :=
  let price := getPriceForRoute env.cfg routeKey
  let recipient := getRecipientForRoute env.cfg routeKey
  let pr := buildPaymentRequest env.cfg.chainId env.now env.randomDraw
    { routeKey := routeKey, price := price, recipient := recipient,
      owner := reqOwner req }
  buildPaymentRequired S402_FACILITATOR USD1_TOKEN env.cfg.chainId routeKey
    pr.payment pr.domain

/-- `requireS402` (synchronous discipline): 402 without proof, 400 on a
schema-invalid proof, otherwise the synchronous validator decides between
grant and the catch-block classification of the thrown message. -/
def requireS402 (env : Env) (routeKey : String) (req : Request) : MwOutcome :=
  match req.s402Proof with
  | ProofInput.absent =>
      MwOutcome.paymentRequired (paymentRequiredResponse env routeKey req)
  | ProofInput.malformed =>
      MwOutcome.denied 400 "INVALID_PROOF_FORMAT" "S402 proof has invalid format"
  | ProofInput.valid proof =>
      let price := getPriceForRoute env.cfg routeKey
      let recipient := getRecipientForRoute env.cfg routeKey
      match validateSubmittedProof env.recover env.chain
          env.cfg.minimumConfirmations env.cfg.chainId env.now proof
          price recipient with
      | Except.ok ctx => MwOutcome.granted ctx none
      | Except.error msg => classifyThrownError msg

/-- The background `.then` handlers attached by `requireS402Async`: an
info entry when the eventual result is verified, a warning otherwise. -/
def backgroundLogOf (ctx : S402Context) : Option LogLevel :=
  match ctx.verificationPromise with
  | some r => some (if r.verified then LogLevel.info else LogLevel.warn)
  | none => none

/-- `requireS402Async` (asynchronous discipline): like `requireS402` but
granting immediately after the async validator, with the background
verification outcome observed only as a log entry. -/
def requireS402Async (env : Env) (routeKey : String) (req : Request) : MwOutcome :=
  match req.s402Proof with
  | ProofInput.absent =>
      MwOutcome.paymentRequired (paymentRequiredResponse env routeKey req)
  | ProofInput.malformed =>
      MwOutcome.denied 400 "INVALID_PROOF_FORMAT" "S402 proof has invalid format"
  | ProofInput.valid proof =>
      let price := getPriceForRoute env.cfg routeKey
      let recipient := getRecipientForRoute env.cfg routeKey
      match validateSubmittedProofAsync env.recover env.chain
          env.cfg.minimumConfirmations env.cfg.chainId env.now proof
          price recipient with
      | Except.ok ctx => MwOutcome.granted ctx (backgroundLogOf ctx)
      | Except.error msg => classifyThrownError msg

/-! Concrete sample data used to instantiate the theorems below. -/

/-- A sample schema-valid payment. -/
def samplePayment : PaymentData :=
  { owner := "0xaa", value := "7", deadline := 2000,
    recipient := "0xBBB", nonce := "0xn1" }

/-- A sample signature triple. -/
def sampleSig : Sig := { v := 27, r := "0xr", s := "0xs" }

/-- A sample proof carrying a transaction hash. -/
def sampleProof : S402Proof :=
  { payment := samplePayment, permitSig := none, authSig := sampleSig,
    txHash := some "0xtx" }

/-- A sample proof whose value is a non-canonical decimal rendering. -/
def proofValue07 : S402Proof :=
  { payment := { samplePayment with value := "07" },
    permitSig := none, authSig := sampleSig, txHash := some "0xtx" }

/-- A recovery oracle that always recovers the sample owner (differing in
case from `samplePayment.owner`). -/
def recoverOwner : Recover := fun _ _ _ => Except.ok "0xAA"

/-- A recovery oracle that always raises. -/
def recoverFail : Recover := fun _ _ _ => Except.error ()

/-- The sample server configuration: chain 56, two confirmations required,
no per-route overrides, base price 7, the sample recipient. -/
def baseCfg : ServerConfig :=
  { chainId := 56, minimumConfirmations := 2, priceTable := fun _ => none,
    basePrice := "7", recipient := "0xBBB" }

/-- A receipt one block old at head 100: exactly one confirmation. -/
def receiptLowConf : Receipt :=
  { blockNumber := 100, status := some 1, toAddr := some S402_FACILITATOR,
    logs := [] }

/-- A chain on which the sample transaction has one confirmation. -/
def chainLowConf : Chain :=
  { getTransactionReceipt := fun _ => Except.ok (some receiptLowConf),
    getBlockNumber := Except.ok 100,
    getTransaction := fun _ => Except.ok none }

/-- A chain client whose every call raises a provider error. -/
def chainRpcError : Chain :=
  { getTransactionReceipt := fun _ => Except.error "RPC down",
    getBlockNumber := Except.error "RPC down",
    getTransaction := fun _ => Except.error "RPC down" }

/-- The request environment of the insufficient-confirmations scenario. -/
def envLowConf : Env :=
  { recover := recoverOwner, chain := chainLowConf, cfg := baseCfg,
    now := 1000, randomDraw := [] }

/-- The sample environment with a 32-byte random draw. -/
def envDraw32 : Env :=
  { recover := recoverOwner, chain := chainLowConf, cfg := baseCfg,
    now := 1000, randomDraw := List.replicate 32 171 }

/-- The sample proof without a transaction hash. -/
def proofNoTxHash : S402Proof :=
  { payment := samplePayment, permitSig := none, authSig := sampleSig,
    txHash := none }

/-- A decoded `PaymentSettled` event matching the sample payment
(sender differing only in case, recipient lowercased, net value). -/
def matchingLog : ParsedLog :=
  { name := "PaymentSettled", fromAddr := "0xAA", toAddr := "0xbbb",
    nonce := "0xn1", value := 7, platformFee := none }

/-- A receipt carrying one undecodable log followed by the matching
settlement event. -/
def receiptWithEvent : Receipt :=
  { blockNumber := 100, status := some 1, toAddr := some S402_FACILITATOR,
    logs := [none, some matchingLog] }

/-- A chain where the sample transaction has two confirmations and a
matching settlement event. -/
def chainWithEvent : Chain :=
  { getTransactionReceipt := fun _ => Except.ok (some receiptWithEvent),
    getBlockNumber := Except.ok 101,
    getTransaction := fun _ => Except.ok none }

/-- A fetched transaction whose calldata decodes to a non-settlement
function even though every embedded field would match. -/
def nonSettlementTx : Tx :=
  { fromAddr := some "0xaa",
    parsedCalldata := Except.ok (some
      { name := "approve",
        payment := some
          { owner := some "0xaa", recipient := some "0xBBB",
            value := some 7, deadline := some 2000, nonce := some "0xn1" } }) }

/-- A chain with two confirmations, no settlement event, and the
non-settlement transaction above. -/
def chainNonSettlement : Chain :=
  { getTransactionReceipt := fun _ => Except.ok (some receiptLowConf),
    getBlockNumber := Except.ok 101,
    getTransaction := fun _ => Except.ok (some nonSettlementTx) }

/-- A fetched transaction whose calldata decodes to `settlePayment` with
an embedded struct matching the sample payment, sent by the owner. -/
def settlementTx : Tx :=
  { fromAddr := some "0xAA",
    parsedCalldata := Except.ok (some
      { name := "settlePayment",
        payment := some
          { owner := some "0xAA", recipient := some "0xbbb",
            value := some 7, deadline := some 2000, nonce := some "0xn1" } }) }

/-- A chain with two confirmations, no settlement event, and matching
settlement calldata. -/
def chainFallbackOk : Chain :=
  { getTransactionReceipt := fun _ => Except.ok (some receiptLowConf),
    getBlockNumber := Except.ok 101,
    getTransaction := fun _ => Except.ok (some settlementTx) }

/-- The substring test agrees with list-infix membership. -/
theorem includesSubstr_eq_true_iff (s pat : String) :
    includesSubstr s pat = true ↔ pat.data <:+: s.data := by
  simp only [includesSubstr, List.any_eq_true, List.mem_tails,
    List.isPrefixOf_iff_prefix, List.infix_iff_prefix_suffix]
  constructor
  · rintro ⟨t, h1, h2⟩
    exact ⟨t, h2, h1⟩
  · rintro ⟨t, h1, h2⟩
    exact ⟨t, h2, h1⟩

/-- Every parameter-validation failure message contains the substring
matched by the middleware catch block. -/
theorem includes_validation_failed (s : String) :
    includesSubstr ("Proof validation failed: " ++ s) "validation failed" = true := by
  rw [includesSubstr_eq_true_iff]
  refine ⟨"Proof ".data, ": ".data ++ s.data, ?_⟩
  rw [String.data_append, ← List.append_assoc]
  rfl

/-- C1: on the synchronous discipline, a proof that passes parameter and
signature validation but whose settlement verification fails
(one confirmation of two required) is claimed to terminate with 403 and
the verifier's reason. The code instead throws a message matching none of
the catch-block patterns, reaches the global error handler, and responds
500 INTERNAL_ERROR; the protected handler is not invoked. This theorem
evaluates the embedded middleware at that failing input: the synchronous
validator rejects with the verifier's reason, yet the response is 500. -/
theorem requireS402_settlement_failure_returns_500 :
    validateSubmittedProof recoverOwner chainLowConf 2 56 1000 sampleProof 7 "0xBBB" =
      Except.error "Transaction verification failed: Insufficient confirmations: 1/2" ∧
    requireS402 envLowConf "tool.example" ⟨ProofInput.valid sampleProof, none⟩ =
      MwOutcome.denied 500 "INTERNAL_ERROR" "An internal server error occurred" := by
  exact ⟨by decide, by decide⟩

/-- C2: `verifyEIP712Signature` returns true iff the address recovered
from the typed value of the payment — whose `spender` field is forced to
the facilitator contract address, `PaymentData` carrying no spender input —
equals the payment owner under case-insensitive comparison, and a recovery
exception yields false rather than propagating. -/
theorem verifyEIP712Signature_correct :
    ∀ (recover : Recover) (payment : PaymentData) (authSig : Sig)
      (domain : EIP712Domain),
      (verifyEIP712Signature recover payment authSig domain = true ↔
        ∃ a, recover domain (paymentTypedValue payment) authSig = Except.ok a ∧
          toLowerStr a = toLowerStr payment.owner) ∧
      (paymentTypedValue payment).spender = S402_FACILITATOR ∧
      (∀ e, recover domain (paymentTypedValue payment) authSig = Except.error e →
        verifyEIP712Signature recover payment authSig domain = false) := by
  intro recover payment authSig domain
  refine ⟨?_, rfl, ?_⟩
  · unfold verifyEIP712Signature
    cases h : recover domain (paymentTypedValue payment) authSig with
    | error e => simp
    | ok a => simp [beq_iff_eq]
  · intro e h
    simp [verifyEIP712Signature, h]

/-- Witness for C2: the always-raising oracle makes verification false at
the sample payment. -/
theorem verifyEIP712Signature_correct_witness :
    verifyEIP712Signature recoverFail samplePayment sampleSig
      (buildEIP712Domain 56) = false := by
  exact (verifyEIP712Signature_correct recoverFail samplePayment sampleSig
    (buildEIP712Domain 56)).2.2 () (by rfl)

/-- C9: `verifyTransactionSettlement` never propagates a provider
exception: whenever the try-block body raises, the result is
verified=false, confirmations 0 and the generic error marker, and
whenever it returns normally the result is passed through unchanged, so
the function returns a value on every input. -/
theorem verifyTransactionSettlement_catches_provider_errors :
    ∀ (chain : Chain) (minConf : Int) (txHash : String) (payment : PaymentData),
      (∀ e, innerVerify chain minConf txHash payment = Except.error e →
        verifyTransactionSettlement chain minConf txHash payment =
          ⟨false, 0, some "Verification failed"⟩) ∧
      (∀ r, innerVerify chain minConf txHash payment = Except.ok r →
        verifyTransactionSettlement chain minConf txHash payment = r) := by
  intro chain minConf txHash payment
  constructor
  · intro e h
    unfold verifyTransactionSettlement
    rw [h]
  · intro r h
    unfold verifyTransactionSettlement
    rw [h]

/-- Witness for C9: on a chain whose receipt lookup raises, verification
degrades to the generic failure result instead of crashing. -/
theorem verifyTransactionSettlement_catches_provider_errors_witness :
    verifyTransactionSettlement chainRpcError 2 "0xtx" samplePayment =
      ⟨false, 0, some "Verification failed"⟩ := by
  exact (verifyTransactionSettlement_catches_provider_errors chainRpcError 2
    "0xtx" samplePayment).1 "RPC down" (by rfl)

/-- C10: the value check shared by both validators is exact string
equality against the canonical decimal rendering of the expected price:
any differing rendering is pushed as a value error, and concretely the
string 07 — accepted by the schema digit regex and numerically equal to
the price 7 — is rejected by both the synchronous and the asynchronous
validator as a value mismatch. -/
theorem value_check_is_exact_string_equality :
    (∀ (chainId now price : Nat) (recip : String) (proof : S402Proof),
      proof.payment.value ≠ toString price →
      valueErrorMsg (toString price) proof.payment.value ∈
        paramErrors chainId now price recip proof) ∧
    isDecimalString "07" = true ∧
    natOfDecimal "07" = natOfDecimal "7" ∧
    ("07" : String) ≠ toString (7 : Nat) ∧
    validateSubmittedProof recoverOwner chainLowConf 2 56 1000 proofValue07 7 "0xBBB" =
      Except.error (validationFailedMsg [valueErrorMsg "7" "07"]) ∧
    validateSubmittedProofAsync recoverOwner chainLowConf 2 56 1000 proofValue07 7 "0xBBB" =
      Except.error (validationFailedMsg [valueErrorMsg "7" "07"]) := by
  refine ⟨?_, by decide, by decide, by decide, by decide, by decide⟩
  intro chainId now price recip proof h
  simp [paramErrors, h]

/-- Witness for C10: the general value-mismatch clause applied at the
concrete non-canonical rendering 07 of the price 7. -/
theorem value_check_is_exact_string_equality_witness :
    valueErrorMsg "7" "07" ∈ paramErrors 56 1000 7 "0xBBB" proofValue07 := by
  exact value_check_is_exact_string_equality.1 56 1000 7 "0xBBB" proofValue07
    (by decide)

/-- C5: when the receipt is found, confirmations are computed as current
head block minus receipt block plus one, and a count below the configured
minimum yields verified=false with the have/need error, with the result
independent of the receipt's status, target and logs and of the
transaction oracle (the later checks are short-circuited). -/
theorem insufficient_confirmations_short_circuits :
    ∀ (chain : Chain) (minConf : Int) (txHash : String) (payment : PaymentData)
      (receipt : Receipt) (currentBlock : Int),
      chain.getTransactionReceipt txHash = Except.ok (some receipt) →
      chain.getBlockNumber = Except.ok currentBlock →
      currentBlock - receipt.blockNumber + 1 < minConf →
      verifyTransactionSettlement chain minConf txHash payment =
        ⟨false, currentBlock - receipt.blockNumber + 1,
          some (insufficientConfirmationsMsg
            (currentBlock - receipt.blockNumber + 1) minConf)⟩ := by
  intro chain minConf txHash payment receipt currentBlock h1 h2 h3
  unfold verifyTransactionSettlement innerVerify
  rw [h1, h2]
  simp [h3]

/-- Witness for C5: one confirmation of two required on the sample chain. -/
theorem insufficient_confirmations_short_circuits_witness :
    verifyTransactionSettlement chainLowConf 2 "0xtx" samplePayment =
      ⟨false, 1, some (insufficientConfirmationsMsg 1 2)⟩ := by
  exact insufficient_confirmations_short_circuits chainLowConf 2 "0xtx"
    samplePayment receiptLowConf 100 (by rfl) (by rfl) (by decide)

/-- C3: when the receipt passes the confirmation, status and
target-contract checks and some log decodes to a `PaymentSettled` event
matching owner, recipient (case-insensitively), nonce, and net-or-gross
value, the transaction is verified via the primary path with the computed
confirmation count, for every transaction oracle — the fallback calldata
path is never consulted. -/
theorem primary_event_path_verifies :
    ∀ (chain : Chain) (minConf : Int) (txHash : String) (payment : PaymentData)
      (receipt : Receipt) (currentBlock : Int) (pl : ParsedLog),
      chain.getTransactionReceipt txHash = Except.ok (some receipt) →
      chain.getBlockNumber = Except.ok currentBlock →
      minConf ≤ currentBlock - receipt.blockNumber + 1 →
      receipt.status = some 1 →
      receiptTargetsFacilitator receipt = true →
      some pl ∈ receipt.logs →
      pl.name = "PaymentSettled" →
      toLowerStr pl.fromAddr = toLowerStr payment.owner →
      toLowerStr pl.toAddr = toLowerStr payment.recipient →
      pl.nonce = payment.nonce →
      (pl.value = natOfDecimal payment.value ∨
        pl.value + pl.platformFee.getD 0 = natOfDecimal payment.value) →
      ∀ (getTx : String → Except String (Option Tx)),
        verifyTransactionSettlement { chain with getTransaction := getTx }
            minConf txHash payment =
          ⟨true, currentBlock - receipt.blockNumber + 1, none⟩ := by
  intro chain minConf txHash payment receipt currentBlock pl h1 h2 h3 h4 h5
    hmem hname hfrom hto hnonce hval getTx
  have hev : eventMatches payment pl = true := by
    simp only [eventMatches, Bool.and_eq_true, beq_iff_eq, Bool.or_eq_true]
    exact ⟨⟨⟨⟨hname, hfrom⟩, hto⟩, hnonce⟩, hval⟩
  have hany : hasMatchingSettlementEvent payment receipt.logs = true := by
    rw [hasMatchingSettlementEvent, List.any_eq_true]
    exact ⟨some pl, hmem, hev⟩
  have hnotlt : ¬ (currentBlock - receipt.blockNumber + 1 < minConf) :=
    Int.not_lt.mpr h3
  unfold verifyTransactionSettlement innerVerify
  simp [h1, h2, hnotlt, h4, h5, hany]

/-- Witness for C3: the sample chain with a matching event verifies even
against a transaction oracle that raises on any call, showing the
fallback path is not consulted. -/
theorem primary_event_path_verifies_witness :
    verifyTransactionSettlement
        { chainWithEvent with
            getTransaction := fun _ => Except.error "not consulted" }
        2 "0xtx" samplePayment =
      ⟨true, 2, none⟩ := by
  exact primary_event_path_verifies chainWithEvent 2 "0xtx" samplePayment
    receiptWithEvent 101 matchingLog (by rfl) (by rfl) (by decide) (by rfl)
    (by decide) (by decide) (by rfl) (by decide) (by decide) (by rfl)
    (by decide) (fun _ => Except.error "not consulted")

/-- The calldata match of the fallback path, spelled out field by field. -/
theorem calldataMatches_eq_true_iff (payment : PaymentData) (tx : Tx) (tp : TxPayment) :
    calldataMatches payment tx tp = true ↔
      (∃ o, tp.owner = some o ∧ toLowerStr o = toLowerStr payment.owner) ∧
      (∃ r, tp.recipient = some r ∧ toLowerStr r = toLowerStr payment.recipient) ∧
      (∃ v, tp.value = some v ∧ toString v = payment.value) ∧
      (∃ d, tp.deadline = some d ∧ toString d = toString payment.deadline) ∧
      tp.nonce = some payment.nonce ∧
      (∃ f, tx.fromAddr = some f ∧ toLowerStr f = toLowerStr payment.owner) := by
  obtain ⟨o, r, v, d, n⟩ := tp
  unfold calldataMatches
  cases o <;> cases r <;> cases v <;> cases d <;> cases n <;>
    cases htx : tx.fromAddr <;> simp [beq_iff_eq, and_assoc]

/-- The verification verdict of the fallback branch, spelled out. -/
theorem fallbackVerify_verified_iff (payment : PaymentData) (conf : Int) (tx : Tx) :
    (fallbackVerify payment conf tx).verified = true ↔
      ∃ p tp, tx.parsedCalldata = Except.ok (some p) ∧
        (p.name = "settlePayment" ∨ p.name = "settlePaymentWithPermit") ∧
        p.payment = some tp ∧ calldataMatches payment tx tp = true := by
  obtain ⟨fa, pcd⟩ := tx
  rcases pcd with e | po
  · simp [fallbackVerify]
  · rcases po with _ | ⟨pname, ppay⟩
    · simp [fallbackVerify]
    · by_cases hn : pname = "settlePayment" ∨ pname = "settlePaymentWithPermit"
      · have hmem : pname ∈ settlementFunctionNames := by
          rcases hn with h | h <;> simp [settlementFunctionNames, h]
        rcases ppay with _ | tp
        · simp [fallbackVerify, hmem, hn]
        · by_cases hm :
            calldataMatches payment ⟨fa, Except.ok (some ⟨pname, some tp⟩)⟩ tp = true
          · simp [fallbackVerify, hmem, hn, hm]
          · simp only [Bool.not_eq_true] at hm
            simp [fallbackVerify, hmem, hn, hm]
      · have h1 : pname ≠ "settlePayment" := fun h => hn (Or.inl h)
        have h2 : pname ≠ "settlePaymentWithPermit" := fun h => hn (Or.inr h)
        have hmem : pname ∉ settlementFunctionNames := by
          simp [settlementFunctionNames, h1, h2]
        simp [fallbackVerify, hmem, hn]

/-- C4 counterexample: a transaction whose calldata decodes — as a
non-settlement function — does not fail with the unparseable-calldata
error the claim names: it fails with the unexpected-function-call error. -/
theorem fallback_nonsettlement_not_unparseable_counterexample :
    verifyTransactionSettlement chainNonSettlement 2 "0xtx" samplePayment =
      ⟨false, 2, some "Unexpected function call"⟩ ∧
    ("Unexpected function call" : String) ≠ "Unable to parse transaction calldata" := by
  exact ⟨by decide, by decide⟩

/-- C4 as amended: the fallback path is reached exactly when no settlement
event matched; it verifies iff the calldata decodes as `settlePayment` or
`settlePaymentWithPermit` with an embedded payment struct matching owner,
recipient, value, deadline and nonce, and the transaction sender equals
the owner; calldata whose decoding raises yields the unparseable-calldata
error, while calldata decoding to null or to a different function yields
the unexpected-function-call error — verified is false in all three cases. -/
theorem fallback_path_characterization :
    ∀ (chain : Chain) (minConf : Int) (txHash : String) (payment : PaymentData)
      (receipt : Receipt) (currentBlock : Int) (tx : Tx),
      chain.getTransactionReceipt txHash = Except.ok (some receipt) →
      chain.getBlockNumber = Except.ok currentBlock →
      minConf ≤ currentBlock - receipt.blockNumber + 1 →
      receipt.status = some 1 →
      receiptTargetsFacilitator receipt = true →
      hasMatchingSettlementEvent payment receipt.logs = false →
      chain.getTransaction txHash = Except.ok (some tx) →
      (verifyTransactionSettlement chain minConf txHash payment =
        fallbackVerify payment (currentBlock - receipt.blockNumber + 1) tx) ∧
      ((fallbackVerify payment (currentBlock - receipt.blockNumber + 1) tx).verified = true ↔
        ∃ p tp, tx.parsedCalldata = Except.ok (some p) ∧
          (p.name = "settlePayment" ∨ p.name = "settlePaymentWithPermit") ∧
          p.payment = some tp ∧ calldataMatches payment tx tp = true) ∧
      (∀ tp, calldataMatches payment tx tp = true ↔
        (∃ o, tp.owner = some o ∧ toLowerStr o = toLowerStr payment.owner) ∧
        (∃ r, tp.recipient = some r ∧ toLowerStr r = toLowerStr payment.recipient) ∧
        (∃ v, tp.value = some v ∧ toString v = payment.value) ∧
        (∃ d, tp.deadline = some d ∧ toString d = toString payment.deadline) ∧
        tp.nonce = some payment.nonce ∧
        (∃ f, tx.fromAddr = some f ∧ toLowerStr f = toLowerStr payment.owner)) ∧
      (tx.parsedCalldata = Except.error () →
        fallbackVerify payment (currentBlock - receipt.blockNumber + 1) tx =
          ⟨false, currentBlock - receipt.blockNumber + 1,
            some "Unable to parse transaction calldata"⟩) ∧
      (tx.parsedCalldata = Except.ok none →
        fallbackVerify payment (currentBlock - receipt.blockNumber + 1) tx =
          ⟨false, currentBlock - receipt.blockNumber + 1,
            some "Unexpected function call"⟩) ∧
      (∀ q, tx.parsedCalldata = Except.ok (some q) →
        q.name ≠ "settlePayment" → q.name ≠ "settlePaymentWithPermit" →
        fallbackVerify payment (currentBlock - receipt.blockNumber + 1) tx =
          ⟨false, currentBlock - receipt.blockNumber + 1,
            some "Unexpected function call"⟩) := by
  intro chain minConf txHash payment receipt currentBlock tx
    h1 h2 h3 h4 h5 hev h6
  have hnotlt : ¬ (currentBlock - receipt.blockNumber + 1 < minConf) :=
    Int.not_lt.mpr h3
  obtain ⟨fa, pcd⟩ := tx
  refine ⟨?_, fallbackVerify_verified_iff payment _ ⟨fa, pcd⟩,
    fun tp => calldataMatches_eq_true_iff payment ⟨fa, pcd⟩ tp, ?_, ?_, ?_⟩
  · unfold verifyTransactionSettlement innerVerify
    simp [h1, h2, hnotlt, h4, h5, hev, h6]
  · intro hcd
    replace hcd : pcd = Except.error () := hcd
    subst hcd
    rfl
  · intro hcd
    replace hcd : pcd = Except.ok none := hcd
    subst hcd
    rfl
  · intro q hcd hq1 hq2
    replace hcd : pcd = Except.ok (some q) := hcd
    subst hcd
    have hmem : q.name ∉ settlementFunctionNames := by
      simp [settlementFunctionNames, hq1, hq2]
    simp [fallbackVerify, hmem]

/-- Witness for C4 (amended): on the sample chain without a settlement
event, the outcome is the fallback verdict of the fetched transaction,
which verifies since the calldata decodes as `settlePayment`, matches the
sample payment and was sent by the owner. -/
theorem fallback_path_characterization_witness :
    verifyTransactionSettlement chainFallbackOk 2 "0xtx" samplePayment =
      fallbackVerify samplePayment 2 settlementTx ∧
    fallbackVerify samplePayment 2 settlementTx = ⟨true, 2, none⟩ := by
  refine ⟨?_, by decide⟩
  exact (fallback_path_characterization chainFallbackOk 2 "0xtx" samplePayment
    receiptLowConf 101 settlementTx (by rfl) (by rfl) (by decide) (by rfl)
    (by decide) (by decide) (by rfl)).1

/-- C6: on both middlewares, a schema-valid proof with a missing
transaction hash, a value differing from the currently resolved price, a
recipient differing case-insensitively from the currently resolved
recipient, a deadline not strictly in the future, or a configured chain id
other than 56 is rejected with a 403 whose message carries the specific
error of every failed field; the rejection holds for every recovery oracle
and chain client, hence precedes the signature and settlement checks. -/
theorem param_mismatch_rejected_with_403 :
    ∀ (env : Env) (routeKey : String) (proof : S402Proof) (ownerF : Option String),
      (proof.txHash = none ∨
       proof.payment.value ≠ toString (getPriceForRoute env.cfg routeKey) ∨
       toLowerStr proof.payment.recipient ≠
         toLowerStr (getRecipientForRoute env.cfg routeKey) ∨
       proof.payment.deadline ≤ env.now ∨
       env.cfg.chainId ≠ 56) →
      (requireS402 env routeKey ⟨ProofInput.valid proof, ownerF⟩ =
        MwOutcome.denied 403 "PAYMENT_VERIFICATION_FAILED"
          (validationFailedMsg (paramErrors env.cfg.chainId env.now
            (getPriceForRoute env.cfg routeKey)
            (getRecipientForRoute env.cfg routeKey) proof))) ∧
      (requireS402Async env routeKey ⟨ProofInput.valid proof, ownerF⟩ =
        MwOutcome.denied 403 "PAYMENT_VERIFICATION_FAILED"
          (validationFailedMsg (paramErrors env.cfg.chainId env.now
            (getPriceForRoute env.cfg routeKey)
            (getRecipientForRoute env.cfg routeKey) proof))) ∧
      (proof.txHash = none →
        txHashErrorMsg ∈ paramErrors env.cfg.chainId env.now
          (getPriceForRoute env.cfg routeKey)
          (getRecipientForRoute env.cfg routeKey) proof) ∧
      (proof.payment.value ≠ toString (getPriceForRoute env.cfg routeKey) →
        valueErrorMsg (toString (getPriceForRoute env.cfg routeKey))
            proof.payment.value ∈ paramErrors env.cfg.chainId env.now
          (getPriceForRoute env.cfg routeKey)
          (getRecipientForRoute env.cfg routeKey) proof) ∧
      (toLowerStr proof.payment.recipient ≠
          toLowerStr (getRecipientForRoute env.cfg routeKey) →
        recipientErrorMsg (getRecipientForRoute env.cfg routeKey)
            proof.payment.recipient ∈ paramErrors env.cfg.chainId env.now
          (getPriceForRoute env.cfg routeKey)
          (getRecipientForRoute env.cfg routeKey) proof) ∧
      (proof.payment.deadline ≤ env.now →
        deadlineErrorMsg proof.payment.deadline env.now ∈
          paramErrors env.cfg.chainId env.now
            (getPriceForRoute env.cfg routeKey)
            (getRecipientForRoute env.cfg routeKey) proof) ∧
      (env.cfg.chainId ≠ 56 →
        chainIdErrorMsg env.cfg.chainId ∈ paramErrors env.cfg.chainId env.now
          (getPriceForRoute env.cfg routeKey)
          (getRecipientForRoute env.cfg routeKey) proof) := by
  intro env routeKey proof ownerF hdisj
  have htx : proof.txHash = none →
      txHashErrorMsg ∈ paramErrors env.cfg.chainId env.now
        (getPriceForRoute env.cfg routeKey)
        (getRecipientForRoute env.cfg routeKey) proof := by
    intro h
    simp [paramErrors, h]
  have hv : proof.payment.value ≠ toString (getPriceForRoute env.cfg routeKey) →
      valueErrorMsg (toString (getPriceForRoute env.cfg routeKey))
          proof.payment.value ∈ paramErrors env.cfg.chainId env.now
        (getPriceForRoute env.cfg routeKey)
        (getRecipientForRoute env.cfg routeKey) proof := by
    intro h
    simp [paramErrors, h]
  have hr : toLowerStr proof.payment.recipient ≠
      toLowerStr (getRecipientForRoute env.cfg routeKey) →
      recipientErrorMsg (getRecipientForRoute env.cfg routeKey)
          proof.payment.recipient ∈ paramErrors env.cfg.chainId env.now
        (getPriceForRoute env.cfg routeKey)
        (getRecipientForRoute env.cfg routeKey) proof := by
    intro h
    simp [paramErrors, h]
  have hd : proof.payment.deadline ≤ env.now →
      deadlineErrorMsg proof.payment.deadline env.now ∈
        paramErrors env.cfg.chainId env.now
          (getPriceForRoute env.cfg routeKey)
          (getRecipientForRoute env.cfg routeKey) proof := by
    intro h
    simp [paramErrors, h]
  have hcid : env.cfg.chainId ≠ 56 →
      chainIdErrorMsg env.cfg.chainId ∈ paramErrors env.cfg.chainId env.now
        (getPriceForRoute env.cfg routeKey)
        (getRecipientForRoute env.cfg routeKey) proof := by
    intro h
    simp [paramErrors, h]
  have hne : paramErrors env.cfg.chainId env.now
      (getPriceForRoute env.cfg routeKey)
      (getRecipientForRoute env.cfg routeKey) proof ≠ [] := by
    rcases hdisj with h | h | h | h | h
    · exact List.ne_nil_of_mem (htx h)
    · exact List.ne_nil_of_mem (hv h)
    · exact List.ne_nil_of_mem (hr h)
    · exact List.ne_nil_of_mem (hd h)
    · exact List.ne_nil_of_mem (hcid h)
  have hval : validateSubmittedProof env.recover env.chain
      env.cfg.minimumConfirmations env.cfg.chainId env.now proof
      (getPriceForRoute env.cfg routeKey)
      (getRecipientForRoute env.cfg routeKey) =
      Except.error (validationFailedMsg (paramErrors env.cfg.chainId env.now
        (getPriceForRoute env.cfg routeKey)
        (getRecipientForRoute env.cfg routeKey) proof)) := by
    unfold validateSubmittedProof
    simp [hne]
  have hvalAsync : validateSubmittedProofAsync env.recover env.chain
      env.cfg.minimumConfirmations env.cfg.chainId env.now proof
      (getPriceForRoute env.cfg routeKey)
      (getRecipientForRoute env.cfg routeKey) =
      Except.error (validationFailedMsg (paramErrors env.cfg.chainId env.now
        (getPriceForRoute env.cfg routeKey)
        (getRecipientForRoute env.cfg routeKey) proof)) := by
    unfold validateSubmittedProofAsync
    simp [hne]
  have hcls : ∀ errs, classifyThrownError (validationFailedMsg errs) =
      MwOutcome.denied 403 "PAYMENT_VERIFICATION_FAILED"
        (validationFailedMsg errs) := by
    intro errs
    unfold classifyThrownError
    simp [validationFailedMsg, includes_validation_failed]
  refine ⟨?_, ?_, htx, hv, hr, hd, hcid⟩
  · unfold requireS402
    dsimp only
    rw [hval]
    exact hcls _
  · unfold requireS402Async
    dsimp only
    rw [hvalAsync]
    exact hcls _

/-- Witness for C6: the sample proof without a transaction hash is denied
with 403 and the txHash-required message on both disciplines. -/
theorem param_mismatch_rejected_with_403_witness :
    requireS402 envLowConf "tool.example" ⟨ProofInput.valid proofNoTxHash, none⟩ =
      MwOutcome.denied 403 "PAYMENT_VERIFICATION_FAILED"
        (validationFailedMsg [txHashErrorMsg]) ∧
    requireS402Async envLowConf "tool.example" ⟨ProofInput.valid proofNoTxHash, none⟩ =
      MwOutcome.denied 403 "PAYMENT_VERIFICATION_FAILED"
        (validationFailedMsg [txHashErrorMsg]) := by
  have h := param_mismatch_rejected_with_403 envLowConf "tool.example"
    proofNoTxHash none (Or.inl rfl)
  exact ⟨h.1, h.2.1⟩

/-- Each byte renders as exactly two hex characters. -/
theorem hexOfBytes_length (bs : List Nat) : (hexOfBytes bs).length = 2 * bs.length := by
  induction bs with
  | nil => rfl
  | cons b bs ih =>
    rw [hexOfBytes, String.length_append, ih]
    have hb : (byteToHex b).length = 2 := rfl
    rw [hb, List.length_cons]
    omega

/-- A 32-byte draw renders as a 66-character 0x-prefixed nonce. -/
theorem generateNonce_length (bs : List Nat) (h : bs.length = 32) :
    (generateNonce bs).length = 66 := by
  rw [generateNonce, String.length_append, hexOfBytes_length, h]
  rfl

/-- C7: a request without a proof on a gated route receives a 402 whose
payment has deadline now+600, value the decimal rendering of the route's
resolved price, the resolved recipient, the nonce rendered from the fresh
random draw (66 characters when the draw is 32 bytes), and the zero
address as owner when the caller declared none. -/
theorem no_proof_402_payment_request :
    ∀ (env : Env) (routeKey : String) (ownerF : Option String),
      ∃ resp, requireS402 env routeKey ⟨ProofInput.absent, ownerF⟩ =
          MwOutcome.paymentRequired resp ∧
        resp.payment.deadline = env.now + 600 ∧
        resp.payment.value = toString (getPriceForRoute env.cfg routeKey) ∧
        resp.payment.recipient = getRecipientForRoute env.cfg routeKey ∧
        resp.payment.nonce = generateNonce env.randomDraw ∧
        (ownerF = none → resp.payment.owner = zeroAddress) ∧
        (env.randomDraw.length = 32 → resp.payment.nonce.length = 66) := by
  intro env routeKey ownerF
  refine ⟨paymentRequiredResponse env routeKey ⟨ProofInput.absent, ownerF⟩,
    rfl, rfl, rfl, rfl, rfl, ?_, ?_⟩
  · intro h
    subst h
    rfl
  · intro h
    exact generateNonce_length env.randomDraw h

/-- Witness for C7: with the 32-byte draw and no declared owner, the 402
challenge carries the zero-address owner and a 66-character nonce. -/
theorem no_proof_402_payment_request_witness :
    requireS402 envDraw32 "tool.example" ⟨ProofInput.absent, none⟩ =
      MwOutcome.paymentRequired (paymentRequiredResponse envDraw32
        "tool.example" ⟨ProofInput.absent, none⟩) ∧
    (paymentRequiredResponse envDraw32 "tool.example"
      ⟨ProofInput.absent, none⟩).payment.owner = zeroAddress ∧
    (paymentRequiredResponse envDraw32 "tool.example"
      ⟨ProofInput.absent, none⟩).payment.nonce.length = 66 := by
  obtain ⟨resp, h1, _, _, _, _, h6, h7⟩ :=
    no_proof_402_payment_request envDraw32 "tool.example" none
  have hr : resp = paymentRequiredResponse envDraw32 "tool.example"
      ⟨ProofInput.absent, none⟩ := by
    have h1' := h1.symm.trans (rfl :
      requireS402 envDraw32 "tool.example" ⟨ProofInput.absent, none⟩ =
        MwOutcome.paymentRequired (paymentRequiredResponse envDraw32
          "tool.example" ⟨ProofInput.absent, none⟩))
    exact (MwOutcome.paymentRequired.injEq _ _).mp h1'
  subst hr
  exact ⟨h1, h6 rfl, h7 (by decide)⟩

/-- C8: on the asynchronous discipline, once parameter validation and the
signature check succeed, the request is granted immediately — for every
chain client, so independently of the settlement outcome — with a context
carrying verifiedAsync and the handle to the started verification, and the
eventual outcome is observed only as a background log entry: info when it
verifies, a warning otherwise. -/
theorem async_discipline_grants_immediately :
    ∀ (env : Env) (routeKey : String) (proof : S402Proof) (ownerF : Option String),
      paramErrors env.cfg.chainId env.now (getPriceForRoute env.cfg routeKey)
        (getRecipientForRoute env.cfg routeKey) proof = [] →
      verifyEIP712Signature env.recover proof.payment proof.authSig
        (buildEIP712Domain env.cfg.chainId) = true →
      requireS402Async env routeKey ⟨ProofInput.valid proof, ownerF⟩ =
        MwOutcome.granted
          { owner := proof.payment.owner
            value := natOfDecimal proof.payment.value
            payment := proof.payment
            txHash := proof.txHash
            verifiedAsync := true
            verificationPromise := some (verifyTransactionSettlement env.chain
              env.cfg.minimumConfirmations (proof.txHash.getD "") proof.payment) }
          (some (if (verifyTransactionSettlement env.chain
                env.cfg.minimumConfirmations (proof.txHash.getD "")
                proof.payment).verified
            then LogLevel.info else LogLevel.warn)) := by
  intro env routeKey proof ownerF herr hsig
  unfold requireS402Async validateSubmittedProofAsync
  simp [herr, hsig, backgroundLogOf]

/-- Witness for C8: the sample proof under the asynchronous discipline is
granted with the async context even though the settlement verification
(one confirmation of two) fails, the failure surfacing only as the
background warning entry. -/
theorem async_discipline_grants_immediately_witness :
    requireS402Async envLowConf "tool.example" ⟨ProofInput.valid sampleProof, none⟩ =
      MwOutcome.granted
        { owner := samplePayment.owner
          value := natOfDecimal samplePayment.value
          payment := samplePayment
          txHash := some "0xtx"
          verifiedAsync := true
          verificationPromise := some (verifyTransactionSettlement chainLowConf
            2 "0xtx" samplePayment) }
        (some (if (verifyTransactionSettlement chainLowConf 2 "0xtx"
            samplePayment).verified
          then LogLevel.info else LogLevel.warn)) := by
  exact async_discipline_grants_immediately envLowConf "tool.example"
    sampleProof none (by decide) (by decide)

end S402
